import Mathlib

/-!
Verification development for the `sal` launcher CLI.

The Python sources (`sal/shortcuts.py`, `sal/config.py`, `sal/mcp.py`,
`sal/launcher.py`, `sal/cli.py`) are shallowly embedded below:

* JSON objects (Python dicts) become insertion-ordered association lists
  `List (String × α)`; dict assignment is `setKey` (update in place,
  append when the key is new), matching Python dict semantics.
* Python `set` values become duplicate-free lists in insertion order:
  `set(xs)` is `pySetOf`, `s.add x` is `pySetInsert`, `s.discard x` is
  `pySetDiscard`, and `list(s)` is the list itself.
* File-system reads become explicit parameters (the contents the Python
  code would load), and writes become returned values; `~/.claude.json`
  and the working-directory side effects are threaded through a `World`
  record.
* Python truthiness of `str | None` values (`if mcp_arg:`) is `truthy`.
* Subprocess/exec outcomes are an explicit `WaitResult` parameter; an
  uncaught `KeyboardInterrupt` is an `Except.error`.
-/

namespace Sal

/-- Python dict assignment `m[k] = v` on an insertion-ordered association
list: replace the (first) binding of `k` in place, append when absent. -/
def setKey {α : Type} : List (String × α) → String → α → List (String × α)
  | [], k, v => [(k, v)]
  | (a, b) :: rest, k, v =>
      if a = k then (k, v) :: rest else (a, b) :: setKey rest k v

/-- Python `d = defaults.copy(); d.update(user)` for JSON-object merges. -/
def mergeDict {α : Type} (defaults user : List (String × α)) : List (String × α) :=
  user.foldl (fun m kv => setKey m kv.1 kv.2) defaults

/-- Python `s.add(x)` on the insertion-ordered list model of a `set`. -/
def pySetInsert (s : List String) (x : String) : List String :=
  if x ∈ s then s else s ++ [x]

/-- Python `set(xs)`: insert the elements one by one. -/
def pySetOf (xs : List String) : List String :=
  xs.foldl pySetInsert []

/-- Python `s.discard(x)` on the list model of a `set`. -/
def pySetDiscard (s : List String) (x : String) : List String :=
  s.filter (fun y => decide (y ≠ x))

/-- The first-occurrence de-duplication loop at the end of
`parse_mcp_arg` (`seen` set plus `unique_servers` list). -/
def dedupLoop (xs : List String) : List String :=
  (xs.foldl (fun st s => if s ∈ st.1 then st else (st.1 ++ [s], st.2 ++ [s]))
    (([], []) : List String × List String)).2

/-- Python `"a,b".split(",")` on the underlying character list
(`split` on a single-character separator; yields `[""]` on `""`). -/
def splitCommaAux (cur : List Char) (acc : List (List Char)) :
    List Char → List (List Char)
  | [] => acc ++ [cur]
  | c :: rest =>
      if c = ',' then splitCommaAux [] (acc ++ [cur]) rest
      else splitCommaAux (cur ++ [c]) acc rest

/-- Python `s.split(",")`. -/
def pySplitComma (s : String) : List String :=
  (splitCommaAux [] [] s.data).map (fun l => String.mk l)

/-- Python `s.strip()`: drop whitespace from both ends. -/
def pyStrip (s : String) : String :=
  String.mk
    (((s.data.dropWhile Char.isWhitespace).reverse.dropWhile Char.isWhitespace).reverse)

/-- Python truthiness of a `str | None` value (`None` and `""` are falsy). -/
def truthy : Option String → Bool
  | some s => !(s == "")
  | none => false

/-! ## `sal/shortcuts.py`: built-in shortcut and profile tables -/

/-- `DEFAULT_SHORTCUTS` from `sal/shortcuts.py`. -/
def DEFAULT_SHORTCUTS : List (String × String) :=
  [("gm", "gmail"), ("cal", "google-calendar"), ("at", "airtable"),
   ("gsh", "google-sheets"), ("doc", "google-docs"), ("drv", "google-drive"),
   ("gpe", "google-people"), ("n8n", "n8n"), ("jf", "jotform")]

/-- `DEFAULT_PROFILES` from `sal/shortcuts.py`. -/
def DEFAULT_PROFILES : List (String × List String) :=
  [("start", ["at", "gm", "cal"]),
   ("google", ["gm", "cal", "gsh", "doc", "drv", "gpe"]),
   ("dev", ["n8n", "at", "jf"]),
   ("all", ["gm", "cal", "at", "gsh", "doc", "drv", "gpe", "n8n", "jf"])]

/-! ## `sal/config.py`: data model and configuration operations -/

/-- One MCP server definition: the opaque launch spec stored under a
server name in `mcp.json` (`stype` models the JSON key `"type"`). -/
structure ServerSpec where
  stype : String
  command : String
  args : List String
  env : List (String × String)
deriving DecidableEq

/-- Abbreviation for the launch specs in `DEFAULT_MCP_SERVERS`:
all the Python-backed entries share this shape. -/
def pySpec (script : String) : ServerSpec :=
  { stype := "stdio",
    command := "/Users/treystegall/tsdev/mcp_servers/.venv/bin/python",
    args := [script], env := [] }

/-- The `"mcpServers"` object of `DEFAULT_MCP_SERVERS` in `sal/config.py`
(the n8n API key is elided to a placeholder string; nothing inspects it). -/
def DEFAULT_MCP_SERVERS : List (String × ServerSpec) :=
  [("gmail", pySpec "/Users/treystegall/tsdev/mcp_servers/gmail-mcp-server/gmail_mcp_server.py"),
   ("google-calendar", pySpec "/Users/treystegall/tsdev/mcp_servers/gcal-mcp-server/calendar_mcp_server.py"),
   ("airtable", pySpec "/Users/treystegall/tsdev/mcp_servers/airtable-mcp-server/airtable_mcp_server.py"),
   ("google-sheets", pySpec "/Users/treystegall/tsdev/mcp_servers/googlesheets-mcp-server/sheets_mcp_server.py"),
   ("google-docs", pySpec "/Users/treystegall/tsdev/mcp_servers/googledocs-mcp-server/docs_mcp_server.py"),
   ("google-drive", pySpec "/Users/treystegall/tsdev/mcp_servers/googledrive-mcp-server/server.py"),
   ("google-people", pySpec "/Users/treystegall/tsdev/mcp_servers/people-mcp-server/people_mcp_server.py"),
   ("n8n", { stype := "stdio", command := "npx", args := ["n8n-mcp"],
             env := [("MCP_MODE", "stdio"), ("LOG_LEVEL", "error"),
                     ("DISABLE_CONSOLE_OUTPUT", "true"),
                     ("N8N_API_URL", "https://stegall-n8n.ngrok.io/api/v1"),
                     ("N8N_API_KEY", "<api-key>")] }),
   ("jotform", pySpec "/Users/treystegall/tsdev/mcp_servers/jotform-mcp-server/jotform_mcp_server.py")]

/-- The recognized keys of `~/.sal/config.json` after the
merge-with-`DEFAULT_CONFIG` read policy of `load_config`.  Keys that may
be absent or `null` are `Option`-valued. -/
structure SalConfig where
  default_profile : Option String
  claude_dir : String
  skip_permissions : Option Bool
  report_email : Option String
deriving DecidableEq

/-- `DEFAULT_CONFIG` from `sal/config.py` (as a merged `SalConfig`). -/
def defaultSalConfig : SalConfig :=
  { default_profile := none, claude_dir := "~/sal/desktop",
    skip_permissions := some true, report_email := none }

/-- `load_shortcuts`: built-in defaults updated with the user override
file (the file contents are the explicit `user` argument). -/
def load_shortcuts (user : List (String × String)) : List (String × String) :=
  mergeDict DEFAULT_SHORTCUTS user

/-- `load_profiles`: built-in defaults updated with the user override
file. -/
def load_profiles (user : List (String × List String)) : List (String × List String) :=
  mergeDict DEFAULT_PROFILES user

/-- `should_skip_permissions`: `config.get("skip_permissions", True)`. -/
def should_skip_permissions (config : SalConfig) : Bool :=
  config.skip_permissions.getD true

/-- `get_default_profile`: `config.get("default_profile")`. -/
def get_default_profile (config : SalConfig) : Option String :=
  config.default_profile

/-- `set_default_profile`: write `config["default_profile"]` back. -/
def set_default_profile (config : SalConfig) (profile : Option String) : SalConfig :=
  { config with default_profile := profile }

/-- `get_report_email`: `config.get("report_email")`. -/
def get_report_email (config : SalConfig) : Option String :=
  config.report_email

/-! ## `sal/mcp.py`: shortcut/profile resolution and validation -/

/-- `get_available_servers`: the key list of the loaded `mcpServers`
object (the loaded MCP config is the explicit argument). -/
def get_available_servers (mcp_servers : List (String × ServerSpec)) : List String :=
  mcp_servers.map Prod.fst

/-- `resolve_shortcut`: `shortcuts.get(shortcut, shortcut)`. -/
def resolve_shortcut (shortcuts : List (String × String)) (shortcut : String) : String :=
  (shortcuts.lookup shortcut).getD shortcut

/-- `resolve_profile`: map the profile's shortcut list through
`resolve_shortcut` (empty when the profile is unknown). -/
def resolve_profile (profiles : List (String × List String))
    (shortcuts : List (String × String)) (profile_name : String) : List String :=
  ((profiles.lookup profile_name).getD []).map (resolve_shortcut shortcuts)

/-- `parse_mcp_arg`: split on commas, strip, skip empties, expand
profiles / resolve shortcuts, then de-duplicate keeping the first
occurrence. -/
def parse_mcp_arg (profiles : List (String × List String))
    (shortcuts : List (String × String)) (mcp_arg : String) : List String :=
  let servers := (pySplitComma mcp_arg).foldl (fun acc raw =>
    let item := pyStrip raw
    if item = "" then acc
    else if (profiles.lookup item).isSome then
      acc ++ resolve_profile profiles shortcuts item
    else acc ++ [resolve_shortcut shortcuts item]) []
  dedupLoop servers

/-- `validate_servers`: partition the requested names into those present
in the available-server key set and those not, preserving order. -/
def validate_servers (available : List String) (server_names : List String) :
    List String × List String :=
  (server_names.filter (fun s => decide (s ∈ available)),
   server_names.filter (fun s => decide (s ∉ available)))

/-! ## `sal/config.py`: the `~/.claude.json` project reconciler -/

/-- A project entry in `~/.claude.json`.  The fields are the ones the
fresh-entry literal in `set_project_mcp_servers` creates, plus the
`disabledMcpServers` key, which may be absent (`none`) before the first
reconcile of the entry. -/
structure ProjectEntry where
  allowedTools : List String
  mcpContextUris : List String
  mcpServers : List (String × ServerSpec)
  enabledMcpjsonServers : List String
  disabledMcpjsonServers : List String
  hasTrustDialogAccepted : Bool
  ignorePatterns : List String
  disabledMcpServers : Option (List String)
deriving DecidableEq

/-- The fresh project entry literal in `set_project_mcp_servers`. -/
def freshProjectEntry : ProjectEntry :=
  { allowedTools := [], mcpContextUris := [], mcpServers := [],
    enabledMcpjsonServers := [], disabledMcpjsonServers := [],
    hasTrustDialogAccepted := true, ignorePatterns := [],
    disabledMcpServers := none }

/-- The `~/.claude.json` contents: the `"projects"` object (absent on a
fresh file) plus the remaining host-owned top-level entries, which this
tool never touches. -/
structure ClaudeConfig where
  projects : Option (List (String × ProjectEntry))
  otherTopLevel : List (String × String)
deriving DecidableEq

/-- The loop `for server_name in all_servers: disabled_servers.discard(server_name)`
of `set_project_mcp_servers`. -/
def discardAll (names : List String) (s : List String) : List String :=
  names.foldl pySetDiscard s

/-- The loop re-adding every managed name that is not in `enabled_set`
(`disabled_servers.add(server_name)` guarded by
`if server_name not in enabled_set`). -/
def addAll (names enabled s : List String) : List String :=
  names.foldl (fun t n => if n ∈ enabled then t else pySetInsert t n) s

/-- The `disabledMcpServers` computation of `set_project_mcp_servers`:
`set` of the existing list, discard every managed name, re-add the
managed names not in the enabled set. -/
def reconcileDisabled (all_names enabled existing : List String) : List String :=
  addAll all_names enabled (discardAll all_names (pySetOf existing))

/-- The per-entry update of `set_project_mcp_servers`: put every managed
server into `mcpServers` and rebuild `disabledMcpServers`. -/
def reconcileEntry (all_servers : List (String × ServerSpec))
    (enabled_servers : List String) (project : ProjectEntry) : ProjectEntry :=
  { project with
    mcpServers := all_servers,
    disabledMcpServers := some (reconcileDisabled (all_servers.map Prod.fst)
      enabled_servers (project.disabledMcpServers.getD [])) }

/-- `set_project_mcp_servers` from `sal/config.py`: make every server of
the master MCP config available in the project entry's `mcpServers`, and
rebuild `disabledMcpServers` by a discard/add pass over the managed names
only (the loaded master config and the loaded `~/.claude.json` are the
explicit `all_servers` / `claude_config` arguments; the canonicalized
project path is the string `project_key`; the returned value is what
`save_claude_config` persists). -/
def set_project_mcp_servers (all_servers : List (String × ServerSpec))
    (claude_config : ClaudeConfig) (project_key : String)
    (enabled_servers : List String) : ClaudeConfig :=
  let projects0 := claude_config.projects.getD []
  let projects1 := if (projects0.lookup project_key).isSome then projects0
                   else setKey projects0 project_key freshProjectEntry
  let project := (projects1.lookup project_key).getD freshProjectEntry
  let projects2 := setKey projects1 project_key
    (reconcileEntry all_servers enabled_servers project)
  { claude_config with projects := some projects2 }

/-- Read a project's entry out of a `ClaudeConfig` (fresh entry when the
key or the `"projects"` object is absent). -/
def getProjectEntry (cfg : ClaudeConfig) (project_key : String) : ProjectEntry :=
  ((cfg.projects.getD []).lookup project_key).getD freshProjectEntry

/-! ## `sal/launcher.py`: command building and launching -/

/-- The `(cmd, enabled_servers, error)` triple `build_claude_command`
returns. -/
structure BuildResult where
  cmd : List String
  enabled_servers : List String
  error : Option String
deriving DecidableEq

/-- `build_claude_command` from `sal/launcher.py`.  The loaded profile,
shortcut and MCP-server tables and the SAL config are explicit
arguments; `mcp_arg` and `prompt` keep their Python `str | None`
truthiness. -/
def build_claude_command (profiles : List (String × List String))
    (shortcuts : List (String × String)) (available : List String)
    (config : SalConfig) (mcp_arg : Option String) (resume safe_mode : Bool)
    (prompt : Option String) : BuildResult :=
  let cmd1 := ["claude"] ++ (if resume then ["--resume"] else [])
  let validated :=
    if truthy mcp_arg then
      validate_servers available (parse_mcp_arg profiles shortcuts (mcp_arg.getD ""))
    else ([], [])
  if validated.2 ≠ [] then
    { cmd := [], enabled_servers := [],
      error := some ("Unknown MCP servers: " ++ String.intercalate ", " validated.2) }
  else
    let cmd2 := cmd1 ++
      (if !safe_mode && should_skip_permissions config
       then ["--dangerously-skip-permissions"] else [])
    let cmd3 := cmd2 ++
      (match prompt with
       | some p => if p = "" then [] else ["--print", "-p", p]
       | none => [])
    { cmd := cmd3, enabled_servers := validated.1, error := none }

/-- The outcome of handing control to the external `claude` binary:
normal child exit, `FileNotFoundError` from the OS, or an interrupt
delivered while waiting (Python `KeyboardInterrupt`). -/
inductive WaitResult where
  | exited (code : Int)
  | fileNotFound
  | interrupted
deriving DecidableEq

/-- How a `launch_claude` call ends: with an exit code returned to the
caller, or with the process image replaced by `os.execvp`. -/
inductive LaunchEnd where
  | code (c : Int)
  | execed
deriving DecidableEq

/-- The file-system state `launch_claude` touches: the persisted
`~/.claude.json`, whether the configured Claude working directory
exists, and the current working directory. -/
structure World where
  claudeConfig : ClaudeConfig
  dirExists : Bool
  cwd : String
deriving DecidableEq

/-- A captured `subprocess.CompletedProcess`. -/
structure CompletedProcess where
  returncode : Int
  stdout : String
  stderr : String
deriving DecidableEq

/-- `launch_claude` from `sal/launcher.py`, up to and including the
hand-off to the child process.  `wait` is the outcome of that hand-off
(`subprocess.run` in the one-shot prompt path, `os.execvp` otherwise;
for `execvp` only the `fileNotFound` outcome returns).  In the prompt
path a `KeyboardInterrupt` during the wait is caught and mapped to exit
status 130. -/
def launch_claude (profiles : List (String × List String))
    (shortcuts : List (String × String)) (all_servers : List (String × ServerSpec))
    (config : SalConfig) (mcp_arg : Option String)
    (resume local_mode safe_mode : Bool) (prompt : Option String)
    (wait : WaitResult) (w : World) : LaunchEnd × World :=
  let claude_dir := if local_mode then w.cwd else config.claude_dir
  let w1 := if local_mode then w else { w with dirExists := true }
  let br := build_claude_command profiles shortcuts
    (get_available_servers all_servers) config mcp_arg resume safe_mode prompt
  match br.error with
  | some _ => (.code 1, w1)
  | none =>
    let w2 := { w1 with claudeConfig :=
      set_project_mcp_servers all_servers w1.claudeConfig claude_dir br.enabled_servers }
    let w3 := if local_mode then w2 else { w2 with cwd := claude_dir }
    if truthy prompt then
      match wait with
      | .exited c => (.code c, w3)
      | .fileNotFound => (.code 1, w3)
      | .interrupted => (.code 130, w3)
    else
      match wait with
      | .fileNotFound => (.code 1, w3)
      | _ => (.execed, w3)

/-- `launch_claude_oneshot` from `sal/launcher.py`.  Only
`FileNotFoundError` is caught around `subprocess.run`; an interrupt
during the wait propagates as an uncaught exception (`Except.error`).
`child_out` / `child_err` are the streams a normally exited child
produced. -/
def launch_claude_oneshot (profiles : List (String × List String))
    (shortcuts : List (String × String)) (all_servers : List (String × ServerSpec))
    (config : SalConfig) (prompt : String) (mcps : Option (List String))
    (safe_mode : Bool) (wait : WaitResult) (child_out child_err : String)
    (w : World) : Except Unit (CompletedProcess × World) :=
  let w1 := { w with dirExists := true }
  let mcp_arg : Option String :=
    match mcps with
    | some l => if l = [] then none else some (String.intercalate "," l)
    | none => none
  let br := build_claude_command profiles shortcuts
    (get_available_servers all_servers) config mcp_arg false safe_mode (some prompt)
  match br.error with
  | some e => .ok ({ returncode := 1, stdout := "", stderr := e }, w1)
  | none =>
    let w2 := { w1 with claudeConfig :=
      (set_project_mcp_servers all_servers w1.claudeConfig config.claude_dir
        br.enabled_servers) }
    match wait with
    | .exited c => .ok ({ returncode := c, stdout := child_out, stderr := child_err }, w2)
    | .fileNotFound =>
        .ok (⟨1, "", "Error: 'claude' command not found. Is Claude Code installed?"⟩, w2)
    | .interrupted => .error ()

/-! ## `sal/cli.py`: command handlers -/

/-- `cmd_mcp_set` from `sal/cli.py`: validate the profile name against
`DEFAULT_PROFILES.copy()` (plus the literal `"none"`), then set or clear
the default profile.  Returns the exit code, the persisted SAL config,
and the printed lines. -/
def cmd_mcp_set (config : SalConfig) (profile : String) :
    Int × SalConfig × List String :=
  if (DEFAULT_PROFILES.lookup profile).isNone ∧ profile ≠ "none" then
    (1, config,
     ["Error: Unknown profile " ++ profile,
      "Available profiles: " ++
        String.intercalate ", " (DEFAULT_PROFILES.map Prod.fst) ++ ", none"])
  else if profile = "none" then
    (0, set_default_profile config none,
     ["Default profile cleared. SAL will launch with no MCPs."])
  else
    (0, set_default_profile config (some profile),
     ["Default profile set to " ++ profile ++ "."])

/-- The observable outcome of one `cmd_start_of_day` run: the exit code,
whether the dated flag file was written, and the printed lines (in
order, stdout only; prompt text and report bodies elided). -/
structure SodResult where
  exitCode : Int
  flagWritten : Bool
  output : List String
deriving DecidableEq

/-- `cmd_start_of_day` from `sal/cli.py`.  The configured report email,
today's flag-file existence, and the two captured one-shot results (the
report run, then the email run) are explicit arguments; the flag-pruning
loop only deletes stale flags and is not part of the observable outcome
modelled here. -/
def cmd_start_of_day (report_email : Option String) (flag_exists : Bool)
    (force status : Bool) (report_result email_result : CompletedProcess) :
    SodResult :=
  if !(truthy report_email) then
    ⟨1, false, ["Error: No report_email configured.",
                "Run: sal config report_email your@email.com"]⟩
  else if status then
    if flag_exists then ⟨0, false, ["Start-of-day routine already ran today."]⟩
    else ⟨0, false, ["Start-of-day routine has not run today."]⟩
  else if flag_exists ∧ !force then
    ⟨0, false, ["Start-of-day routine already ran today. Use --force to run again."]⟩
  else if report_result.returncode ≠ 0 then
    ⟨1, false, ["Running start-of-day routine...", "Morning routine FAILED",
                report_result.stderr]⟩
  else
    let warn := if email_result.returncode ≠ 0 then
        ["Warning: Failed to send email report", email_result.stderr]
      else []
    ⟨0, true,
     ["Running start-of-day routine...", "Sending email report..."] ++ warn ++
       ["Morning routine completed!", report_result.stdout]⟩

/-! ## Spec-side resolver

`resolveSpecSide` is written from the words of the specification of the
MCP resolver (split on commas, trim, drop empties, expand profile
members through the shortcut map in profile-list order, resolve other
tokens through the shortcut map passing unknowns through, de-duplicate
keeping first occurrences) in order to compare it with the
source-derived `parse_mcp_arg`. -/

/-- First-occurrence de-duplication, in the direct recursive form used
by the spec-side resolver. -/
def dedupFirst : List String → List String
  | [] => []
  | x :: xs => x :: dedupFirst (xs.filter (fun y => decide (y ≠ x)))
termination_by l => l.length
decreasing_by
  simp_wf
  exact Nat.lt_succ_of_le (List.length_filter_le _ _)

/-- Spec-side expansion of one non-empty token: a profile name expands
to its members resolved through the shortcut map in profile-list order;
any other token resolves through the shortcut map, passing through
unchanged when absent. -/
def expandToken (profiles : List (String × List String))
    (shortcuts : List (String × String)) (t : String) : List String :=
  match profiles.lookup t with
  | some members => members.map (resolve_shortcut shortcuts)
  | none => [resolve_shortcut shortcuts t]

/-- Spec-side MCP resolver, following the specification text rather than
the source. -/
def resolveSpecSide (profiles : List (String × List String))
    (shortcuts : List (String × String)) (raw : String) : List String :=
  let tokens := ((pySplitComma raw).map pyStrip).filter (fun t => decide (t ≠ ""))
  dedupFirst (tokens.flatMap (expandToken profiles shortcuts))

/-! ## Lemmas about the dict/set primitives -/

theorem lookup_setKey {α : Type} (m : List (String × α)) (k j : String) (v : α) :
    (setKey m k v).lookup j = if j = k then some v else m.lookup j := by
  induction m with
  | nil =>
    by_cases h : j = k
    · simp [setKey, List.lookup, h]
    · simp [setKey, List.lookup, beq_eq_false_iff_ne.mpr h, h]
  | cons p rest ih =>
    obtain ⟨a, b⟩ := p
    by_cases hak : a = k
    · subst hak
      by_cases hj : j = a
      · simp [setKey, List.lookup, beq_iff_eq.mpr hj, hj]
      · simp [setKey, List.lookup, beq_eq_false_iff_ne.mpr hj, hj]
    · by_cases hj : j = a
      · have hjk : ¬j = k := fun hh => hak (hj.symm.trans hh)
        simp [setKey, hak, List.lookup, beq_iff_eq.mpr hj, hjk]
      · simp [setKey, hak, List.lookup, beq_eq_false_iff_ne.mpr hj, ih]

theorem setKey_setKey_self {α : Type} (m : List (String × α)) (k : String) (v : α) :
    setKey (setKey m k v) k v = setKey m k v := by
  induction m with
  | nil => simp [setKey]
  | cons p rest ih =>
    obtain ⟨a, b⟩ := p
    by_cases hak : a = k
    · subst hak; simp [setKey]
    · simp [setKey, hak, ih]

theorem lookup_isSome_of_mem_keys {α : Type} {m : List (String × α)} {n : String}
    (h : n ∈ m.map Prod.fst) : (m.lookup n).isSome := by
  induction m with
  | nil => simp at h
  | cons p rest ih =>
    obtain ⟨a, b⟩ := p
    by_cases hna : n = a
    · simp [List.lookup, beq_iff_eq.mpr hna]
    · simp [List.map_cons, hna] at h
      obtain ⟨x, hx⟩ := h
      simp [List.lookup, beq_eq_false_iff_ne.mpr hna,
        ih (List.mem_map.mpr ⟨(n, x), hx, rfl⟩)]

theorem mem_pySetInsert {s : List String} {x y : String} :
    y ∈ pySetInsert s x ↔ y ∈ s ∨ y = x := by
  by_cases h : x ∈ s
  · rw [pySetInsert, if_pos h]
    constructor
    · exact Or.inl
    · rintro (hy | rfl)
      · exact hy
      · exact h
  · rw [pySetInsert, if_neg h]
    simp

theorem nodup_pySetInsert {s : List String} (x : String) (h : s.Nodup) :
    (pySetInsert s x).Nodup := by
  by_cases hx : x ∈ s
  · rw [pySetInsert, if_pos hx]; exact h
  · rw [pySetInsert, if_neg hx]
    simp [List.nodup_append, h, hx]

theorem mem_foldl_pySetInsert (xs : List String) :
    ∀ (s : List String) (y : String),
      y ∈ xs.foldl pySetInsert s ↔ y ∈ s ∨ y ∈ xs := by
  induction xs with
  | nil => simp
  | cons x xs ih =>
    intro s y
    rw [List.foldl_cons, ih, mem_pySetInsert]
    simp [List.mem_cons]
    tauto

theorem nodup_foldl_pySetInsert (xs : List String) :
    ∀ s : List String, s.Nodup → (xs.foldl pySetInsert s).Nodup := by
  induction xs with
  | nil => exact fun s h => h
  | cons x xs ih =>
    intro s h
    exact ih _ (nodup_pySetInsert x h)

theorem foldl_pySetInsert_of_nodup (xs : List String) :
    ∀ s : List String, (s ++ xs).Nodup → xs.foldl pySetInsert s = s ++ xs := by
  induction xs with
  | nil => simp
  | cons x xs ih =>
    intro s h
    have hx : x ∉ s := by
      intro hmem
      have := List.disjoint_of_nodup_append h hmem
      simp at this
    have e : s ++ [x] ++ xs = s ++ x :: xs := by simp
    have hnod : (s ++ [x] ++ xs).Nodup := by rw [e]; exact h
    rw [List.foldl_cons, pySetInsert, if_neg hx, ih (s ++ [x]) hnod, e]

theorem mem_pySetOf {xs : List String} {y : String} : y ∈ pySetOf xs ↔ y ∈ xs := by
  rw [pySetOf, mem_foldl_pySetInsert]
  simp

theorem nodup_pySetOf (xs : List String) : (pySetOf xs).Nodup :=
  nodup_foldl_pySetInsert xs [] List.nodup_nil

theorem pySetOf_eq_self {xs : List String} (h : xs.Nodup) : pySetOf xs = xs := by
  rw [pySetOf, foldl_pySetInsert_of_nodup xs [] (by simpa using h)]
  simp

theorem discardAll_eq_filter (N : List String) :
    ∀ s : List String, discardAll N s = s.filter (fun y => decide (y ∉ N)) := by
  induction N with
  | nil =>
    intro s
    rw [discardAll, List.foldl_nil, List.filter_eq_self.mpr]
    intro a _
    simp
  | cons n N ih =>
    intro s
    rw [discardAll, List.foldl_cons, ← discardAll, ih, pySetDiscard, List.filter_filter]
    apply List.filter_congr
    intro a _
    simp [List.mem_cons, not_or, Bool.and_comm]

theorem mem_discardAll {N s : List String} {y : String} :
    y ∈ discardAll N s ↔ y ∈ s ∧ y ∉ N := by
  rw [discardAll_eq_filter, List.mem_filter]
  simp

theorem nodup_discardAll (N : List String) {s : List String} (h : s.Nodup) :
    (discardAll N s).Nodup := by
  rw [discardAll_eq_filter]
  exact h.filter _

theorem mem_addAll (N S : List String) :
    ∀ (s : List String) (y : String),
      y ∈ addAll N S s ↔ y ∈ s ∨ (y ∈ N ∧ y ∉ S) := by
  induction N with
  | nil => simp [addAll]
  | cons n N ih =>
    intro s y
    rw [addAll, List.foldl_cons, ← addAll, ih]
    by_cases hnS : n ∈ S
    · simp only [if_pos hnS, List.mem_cons]
      constructor
      · tauto
      · rintro (hy | ⟨(rfl | hyN), hyS⟩)
        · exact Or.inl hy
        · exact absurd hnS hyS
        · exact Or.inr ⟨hyN, hyS⟩
    · rw [if_neg hnS]
      rw [show pySetInsert s n = pySetInsert s n from rfl]
      constructor
      · rintro (hy | hyN)
        · rcases mem_pySetInsert.mp hy with hy | rfl
          · exact Or.inl hy
          · exact Or.inr ⟨List.mem_cons_self _ _, hnS⟩
        · exact Or.inr ⟨List.mem_cons_of_mem _ hyN.1, hyN.2⟩
      · rintro (hy | ⟨hyN, hyS⟩)
        · exact Or.inl (mem_pySetInsert.mpr (Or.inl hy))
        · rcases List.mem_cons.mp hyN with rfl | hyN
          · exact Or.inl (mem_pySetInsert.mpr (Or.inr rfl))
          · exact Or.inr ⟨hyN, hyS⟩

theorem nodup_addAll (N S : List String) :
    ∀ s : List String, s.Nodup → (addAll N S s).Nodup := by
  induction N with
  | nil => exact fun s h => h
  | cons n N ih =>
    intro s h
    rw [addAll, List.foldl_cons, ← addAll]
    by_cases hnS : n ∈ S
    · rw [if_pos hnS]; exact ih s h
    · rw [if_neg hnS]; exact ih _ (nodup_pySetInsert n h)

theorem filter_addAll (N S : List String) (p : String → Bool)
    (hp : ∀ n ∈ N, p n = false) :
    ∀ s : List String, (addAll N S s).filter p = s.filter p := by
  induction N with
  | nil => intro s; simp [addAll]
  | cons n N ih =>
    intro s
    rw [addAll, List.foldl_cons, ← addAll]
    have ihn := ih (fun m hm => hp m (List.mem_cons_of_mem _ hm))
    by_cases hnS : n ∈ S
    · rw [if_pos hnS]; exact ihn s
    · rw [if_neg hnS, ihn]
      by_cases hns : n ∈ s
      · rw [pySetInsert, if_pos hns]
      · rw [pySetInsert, if_neg hns, List.filter_append]
        simp [hp n (List.mem_cons_self _ _)]

theorem filter_filter_self (l : List String) (p : String → Bool) :
    (l.filter p).filter p = l.filter p :=
  List.filter_eq_self.mpr (fun _ ha => List.of_mem_filter ha)

/-! ## The three first-occurrence de-duplications agree -/

theorem foldl_seen_pair (xs : List String) :
    ∀ s : List String,
      xs.foldl (fun st t => if t ∈ st.1 then st else (st.1 ++ [t], st.2 ++ [t])) (s, s)
        = (xs.foldl pySetInsert s, xs.foldl pySetInsert s) := by
  induction xs with
  | nil => intro s; rfl
  | cons x xs ih =>
    intro s
    rw [List.foldl_cons, List.foldl_cons]
    by_cases h : x ∈ s
    · rw [if_pos h, pySetInsert, if_pos h]
      exact ih s
    · rw [if_neg h, pySetInsert, if_neg h]
      exact ih (s ++ [x])

theorem dedupLoop_eq_pySetOf (xs : List String) : dedupLoop xs = pySetOf xs := by
  rw [dedupLoop, pySetOf, foldl_seen_pair]

theorem foldl_pySetInsert_eq_dedupFirst (xs : List String) :
    ∀ s : List String,
      xs.foldl pySetInsert s
        = s ++ dedupFirst (xs.filter (fun y => decide (y ∉ s))) := by
  induction xs with
  | nil => intro s; simp [dedupFirst]
  | cons x xs ih =>
    intro s
    by_cases h : x ∈ s
    · rw [List.foldl_cons, pySetInsert, if_pos h, ih]
      congr 2
      simp [h]
    · rw [List.foldl_cons, pySetInsert, if_neg h, ih]
      have e1 : (x :: xs).filter (fun y => decide (y ∉ s))
          = x :: xs.filter (fun y => decide (y ∉ s)) := by simp [h]
      rw [e1, dedupFirst, List.filter_filter]
      have e2 : (xs.filter fun a => decide (a ≠ x) && decide (a ∉ s))
          = xs.filter (fun y => decide (y ∉ s ++ [x])) := by
        apply List.filter_congr
        intro a _
        simp [List.mem_append, not_or, Bool.and_comm]
      rw [e2]
      simp

theorem pySetOf_eq_dedupFirst (xs : List String) : pySetOf xs = dedupFirst xs := by
  rw [pySetOf, foldl_pySetInsert_eq_dedupFirst]
  simp

/-! ## The source resolver refines the spec-side resolver -/

theorem parse_foldl_eq_flatMap (profiles : List (String × List String))
    (shortcuts : List (String × String)) (raws : List String) :
    ∀ acc : List String,
      raws.foldl (fun acc raw =>
        let item := pyStrip raw
        if item = "" then acc
        else if (profiles.lookup item).isSome then
          acc ++ resolve_profile profiles shortcuts item
        else acc ++ [resolve_shortcut shortcuts item]) acc
      = acc ++ ((raws.map pyStrip).filter (fun t => decide (t ≠ ""))).flatMap
          (expandToken profiles shortcuts) := by
  induction raws with
  | nil => intro acc; simp
  | cons raw raws ih =>
    intro acc
    rw [List.foldl_cons, List.map_cons]
    by_cases he : pyStrip raw = ""
    · simp only [he, if_pos rfl]
      rw [ih]
      congr 1
    · rw [List.filter_cons_of_pos (by simp [he]), List.flatMap_cons]
      by_cases hp : (profiles.lookup (pyStrip raw)).isSome
      · obtain ⟨members, hm⟩ := Option.isSome_iff_exists.mp hp
        simp only [if_neg he, if_pos hp]
        rw [ih, List.append_assoc]
        congr 2
        rw [resolve_profile, expandToken, hm]
        simp
      · simp only [if_neg he, if_neg hp]
        rw [ih, List.append_assoc]
        congr 2
        rw [expandToken, Option.not_isSome_iff_eq_none.mp hp]

theorem parse_mcp_arg_eq_resolveSpecSide (profiles : List (String × List String))
    (shortcuts : List (String × String)) (raw : String) :
    parse_mcp_arg profiles shortcuts raw = resolveSpecSide profiles shortcuts raw := by
  rw [parse_mcp_arg, resolveSpecSide, parse_foldl_eq_flatMap,
    List.nil_append, dedupLoop_eq_pySetOf, pySetOf_eq_dedupFirst]

/-! ## Reconciler characterization and idempotence -/

theorem getProjectEntry_set_project (A : List (String × ServerSpec))
    (cfg : ClaudeConfig) (key : String) (S : List String) :
    getProjectEntry (set_project_mcp_servers A cfg key S) key
      = reconcileEntry A S (getProjectEntry cfg key) := by
  rw [set_project_mcp_servers, getProjectEntry, getProjectEntry]
  by_cases h : (((cfg.projects.getD []).lookup key)).isSome
  · simp [h, lookup_setKey]
  · simp [h, lookup_setKey, Option.not_isSome_iff_eq_none.mp h]

theorem reconcileDisabled_nodup (N S e : List String) :
    (reconcileDisabled N S e).Nodup := by
  rw [reconcileDisabled]
  exact nodup_addAll N S _ (nodup_discardAll N (nodup_pySetOf e))

theorem reconcileDisabled_idem (N S e : List String) :
    reconcileDisabled N S (reconcileDisabled N S e) = reconcileDisabled N S e := by
  have h1 : pySetOf (reconcileDisabled N S e) = reconcileDisabled N S e :=
    pySetOf_eq_self (reconcileDisabled_nodup N S e)
  have h2 : discardAll N (reconcileDisabled N S e)
      = discardAll N (pySetOf e) := by
    rw [reconcileDisabled, discardAll_eq_filter,
      filter_addAll N S _ (fun n hn => by simp [hn]),
      discardAll_eq_filter, filter_filter_self, ← discardAll_eq_filter]
  rw [reconcileDisabled, h1, h2, ← reconcileDisabled]

theorem reconcileEntry_idem (A : List (String × ServerSpec))
    (S : List String) (p : ProjectEntry) :
    reconcileEntry A S (reconcileEntry A S p) = reconcileEntry A S p := by
  rw [reconcileEntry, reconcileEntry]
  simp [reconcileDisabled_idem]

theorem lookup_foldl_setKey_isSome {α : Type} (user : List (String × α)) :
    ∀ (m : List (String × α)) (k : String),
      (user.lookup k).isSome ∨ (m.lookup k).isSome →
      ((user.foldl (fun m kv => setKey m kv.1 kv.2) m).lookup k).isSome := by
  induction user with
  | nil =>
    intro m k h
    rcases h with h | h
    · simp [List.lookup] at h
    · exact h
  | cons kv user ih =>
    intro m k h
    obtain ⟨a, b⟩ := kv
    rw [List.foldl_cons]
    apply ih
    by_cases hk : k = a
    · right
      rw [lookup_setKey, if_pos hk]
      rfl
    · rcases h with h | h
      · left
        rw [List.lookup, beq_eq_false_iff_ne.mpr hk] at h
        exact h
      · right
        rw [lookup_setKey, if_neg hk]
        exact h

theorem lookup_mergeDict_isSome {α : Type} (defaults user : List (String × α))
    (k : String) (h : (user.lookup k).isSome) :
    ((mergeDict defaults user).lookup k).isSome :=
  lookup_foldl_setKey_isSome user defaults k (Or.inl h)

/-! # The claims -/

/-- C1: after `set_project_mcp_servers(p, S)` with `S` drawn from the
managed server names, every managed name is a key of the project entry's
`mcpServers` map, and the managed names of that map minus the persisted
`disabledMcpServers` list are exactly `S` as a set. -/
theorem C1_reconcile_correct (A : List (String × ServerSpec)) (cfg : ClaudeConfig)
    (key : String) (S : List String)
    (hS : ∀ s ∈ S, s ∈ A.map Prod.fst) :
    (∀ n ∈ A.map Prod.fst,
      (((getProjectEntry (set_project_mcp_servers A cfg key S) key).mcpServers).lookup n).isSome)
    ∧ (∀ n : String, (n ∈ A.map Prod.fst ∧
        n ∉ ((getProjectEntry (set_project_mcp_servers A cfg key S) key).disabledMcpServers).getD [])
        ↔ n ∈ S) := by
  rw [getProjectEntry_set_project, reconcileEntry]
  constructor
  · intro n hn
    simpa using lookup_isSome_of_mem_keys hn
  · intro n
    simp only [Option.getD_some]
    constructor
    · rintro ⟨hnN, hnd⟩
      by_contra hnS
      apply hnd
      rw [reconcileDisabled, mem_addAll]
      exact Or.inr ⟨hnN, hnS⟩
    · intro hnS
      refine ⟨hS n hnS, ?_⟩
      intro hnd
      rw [reconcileDisabled, mem_addAll] at hnd
      rcases hnd with hd | ⟨_, hnS2⟩
      · exact (mem_discardAll.mp hd).2 (hS n hnS)
      · exact hnS2 hnS

/-- Witness for C1 at a concrete reconcile call. -/
theorem C1_reconcile_correct_witness :
    (∀ s ∈ ["gmail"], s ∈ DEFAULT_MCP_SERVERS.map Prod.fst)
    ∧ ((∀ n ∈ DEFAULT_MCP_SERVERS.map Prod.fst,
        (((getProjectEntry (set_project_mcp_servers DEFAULT_MCP_SERVERS ⟨none, []⟩
            "/Users/u/sal/desktop" ["gmail"]) "/Users/u/sal/desktop").mcpServers).lookup n).isSome)
      ∧ (∀ n : String, (n ∈ DEFAULT_MCP_SERVERS.map Prod.fst ∧
          n ∉ ((getProjectEntry (set_project_mcp_servers DEFAULT_MCP_SERVERS ⟨none, []⟩
            "/Users/u/sal/desktop" ["gmail"]) "/Users/u/sal/desktop").disabledMcpServers).getD [])
          ↔ n ∈ ["gmail"])) :=
  ⟨by decide, C1_reconcile_correct DEFAULT_MCP_SERVERS ⟨none, []⟩ "/Users/u/sal/desktop"
    ["gmail"] (by decide)⟩

/-- C2: a `disabledMcpServers` entry whose name is not a managed server
name survives `set_project_mcp_servers` untouched. -/
theorem C2_reconcile_preserves_foreign (A : List (String × ServerSpec))
    (cfg : ClaudeConfig) (key : String) (S : List String) (f : String)
    (hf : f ∈ ((getProjectEntry cfg key).disabledMcpServers).getD [])
    (hfA : f ∉ A.map Prod.fst) :
    f ∈ ((getProjectEntry (set_project_mcp_servers A cfg key S) key).disabledMcpServers).getD [] := by
  rw [getProjectEntry_set_project, reconcileEntry]
  simp only [Option.getD_some]
  rw [reconcileDisabled, mem_addAll]
  left
  rw [mem_discardAll]
  exact ⟨mem_pySetOf.mpr hf, hfA⟩

/-- Witness for C2: a foreign plugin name in the not-auto-start list of
an existing project entry survives a concrete reconcile. -/
theorem C2_reconcile_preserves_foreign_witness :
    ("other-plugin" ∈ ((getProjectEntry
        ⟨some [("/Users/u/sal/desktop",
          ⟨[], [], [], [], [], true, [], some ["other-plugin"]⟩)], []⟩
        "/Users/u/sal/desktop").disabledMcpServers).getD [])
    ∧ ("other-plugin" ∉ DEFAULT_MCP_SERVERS.map Prod.fst)
    ∧ ("other-plugin" ∈ ((getProjectEntry (set_project_mcp_servers DEFAULT_MCP_SERVERS
        ⟨some [("/Users/u/sal/desktop",
          ⟨[], [], [], [], [], true, [], some ["other-plugin"]⟩)], []⟩
        "/Users/u/sal/desktop" ["gmail"]) "/Users/u/sal/desktop").disabledMcpServers).getD []) :=
  ⟨by decide, by decide,
   C2_reconcile_preserves_foreign DEFAULT_MCP_SERVERS
     ⟨some [("/Users/u/sal/desktop",
       ⟨[], [], [], [], [], true, [], some ["other-plugin"]⟩)], []⟩
     "/Users/u/sal/desktop" ["gmail"] "other-plugin" (by decide) (by decide)⟩

/-- C3: `parse_mcp_arg` implements exactly the spec-side resolution
algorithm (split on commas, trim, drop empties, expand profiles through
the shortcut map in profile-list order, resolve other tokens through the
shortcut map with pass-through, de-duplicate keeping first occurrences),
and on the default tables `"gm,cal,gm"` resolves to
`["gmail", "google-calendar"]`. -/
theorem C3_parse_mcp_arg_spec :
    (∀ (profiles : List (String × List String)) (shortcuts : List (String × String))
      (raw : String),
      parse_mcp_arg profiles shortcuts raw = resolveSpecSide profiles shortcuts raw)
    ∧ parse_mcp_arg (load_profiles []) (load_shortcuts []) "gm,cal,gm"
        = ["gmail", "google-calendar"] :=
  ⟨parse_mcp_arg_eq_resolveSpecSide, by decide⟩

/-- C4: reconciling twice with identical arguments leaves the persisted
`~/.claude.json` model identical after the second call to what it was
after the first (hence the serialized file is byte-identical). -/
theorem C4_reconcile_idempotent (A : List (String × ServerSpec)) (cfg : ClaudeConfig)
    (key : String) (S : List String) :
    set_project_mcp_servers A (set_project_mcp_servers A cfg key S) key S
      = set_project_mcp_servers A cfg key S := by
  have hinner : set_project_mcp_servers A cfg key S =
      { cfg with projects := some (setKey
          (if ((cfg.projects.getD []).lookup key).isSome then cfg.projects.getD []
           else setKey (cfg.projects.getD []) key freshProjectEntry) key
          (reconcileEntry A S (getProjectEntry cfg key))) } := by
    rw [set_project_mcp_servers]
    by_cases h : ((cfg.projects.getD []).lookup key).isSome
    · simp [h, getProjectEntry]
    · simp [h, getProjectEntry, lookup_setKey, Option.not_isSome_iff_eq_none.mp h]
  rw [hinner, set_project_mcp_servers]
  simp [lookup_setKey, reconcileEntry_idem, setKey_setKey_self]

/-- C10: with no `report_email` configured, `cmd_start_of_day` exits 1
with the missing-email error before any other processing — in
particular, `status` mode reports the error instead of today's state,
and no flag file is written. -/
theorem C10_start_of_day_requires_email (flag_exists force status : Bool)
    (report_result email_result : CompletedProcess) :
    cmd_start_of_day none flag_exists force status report_result email_result
      = ⟨1, false, ["Error: No report_email configured.",
                    "Run: sal config report_email your@email.com"]⟩ := by
  rw [cmd_start_of_day]
  simp [truthy]

/-- C7: in the daily start-of-day routine, when the report run succeeds
but the email run exits nonzero, the routine still writes the dated flag
file, prints a warning, and exits 0. -/
theorem C7_partial_failure (email : String) (flag_exists force : Bool)
    (report_result email_result : CompletedProcess)
    (hemail : email ≠ "")
    (hrun : flag_exists = false ∨ force = true)
    (hreport : report_result.returncode = 0)
    (hmail : email_result.returncode ≠ 0) :
    (cmd_start_of_day (some email) flag_exists force false report_result email_result).exitCode = 0
    ∧ (cmd_start_of_day (some email) flag_exists force false report_result email_result).flagWritten = true
    ∧ "Warning: Failed to send email report"
        ∈ (cmd_start_of_day (some email) flag_exists force false report_result email_result).output := by
  have hskip : ¬(flag_exists = true ∧ force = false) := by
    rcases hrun with h | h <;> simp [h]
  rw [cmd_start_of_day]
  simp [truthy, hemail, hskip, hreport, hmail]

/-- Witness for C7 at a concrete partial failure. -/
theorem C7_partial_failure_witness :
    ("u@example.com" ≠ "" ∧ (false = false ∨ false = true)
      ∧ (⟨0, "report text", ""⟩ : CompletedProcess).returncode = 0
      ∧ (⟨1, "", "smtp down"⟩ : CompletedProcess).returncode ≠ 0)
    ∧ ((cmd_start_of_day (some "u@example.com") false false false
          ⟨0, "report text", ""⟩ ⟨1, "", "smtp down"⟩).exitCode = 0
      ∧ (cmd_start_of_day (some "u@example.com") false false false
          ⟨0, "report text", ""⟩ ⟨1, "", "smtp down"⟩).flagWritten = true
      ∧ "Warning: Failed to send email report"
          ∈ (cmd_start_of_day (some "u@example.com") false false false
              ⟨0, "report text", ""⟩ ⟨1, "", "smtp down"⟩).output) :=
  ⟨⟨by decide, Or.inl rfl, by decide, by decide⟩,
   C7_partial_failure "u@example.com" false false ⟨0, "report text", ""⟩ ⟨1, "", "smtp down"⟩
     (by decide) (Or.inl rfl) (by decide) (by decide)⟩

/-- C9: `cmd_mcp_set` accepts exactly the built-in profile names plus
the literal `"none"`; a profile defined only in the user profiles
override file is rejected with exit code 1 and the configuration is left
unchanged, even though the same name is a key of the merged profile map
used at launch time and `parse_mcp_arg` expands it as a profile there. -/
theorem C9_mcp_set_rejects_user_profiles (config : SalConfig)
    (userProfiles : List (String × List String)) (shortcuts : List (String × String))
    (p : String)
    (hbuiltin : (DEFAULT_PROFILES.lookup p).isNone)
    (hnone : p ≠ "none")
    (huser : (userProfiles.lookup p).isSome)
    (hsplit : pySplitComma p = [p])
    (hstrip : pyStrip p = p)
    (hne : p ≠ "") :
    (∀ (cfg2 : SalConfig) (q : String),
      (cmd_mcp_set cfg2 q).1 = 0 ↔ ((DEFAULT_PROFILES.lookup q).isSome ∨ q = "none"))
    ∧ (cmd_mcp_set config p).1 = 1
    ∧ (cmd_mcp_set config p).2.1 = config
    ∧ ((load_profiles userProfiles).lookup p).isSome
    ∧ parse_mcp_arg (load_profiles userProfiles) shortcuts p
        = dedupLoop (resolve_profile (load_profiles userProfiles) shortcuts p) := by
  have hmerged : ((load_profiles userProfiles).lookup p).isSome :=
    lookup_mergeDict_isSome DEFAULT_PROFILES userProfiles p huser
  refine ⟨?_, ?_, ?_, hmerged, ?_⟩
  · intro cfg2 q
    rw [cmd_mcp_set]
    by_cases hq : (DEFAULT_PROFILES.lookup q).isNone ∧ q ≠ "none"
    · rw [if_pos hq]
      simp [Option.isNone_iff_eq_none.mp hq.1, hq.2]
    · rw [if_neg hq]
      have hr : (DEFAULT_PROFILES.lookup q).isSome ∨ q = "none" := by
        rcases not_and_or.mp hq with h | h
        · left
          cases ho : DEFAULT_PROFILES.lookup q with
          | none =>
            have : (DEFAULT_PROFILES.lookup q).isNone = true := by rw [ho]; rfl
            exact absurd this h
          | some v => rfl
        · right
          exact not_not.mp h
      refine iff_of_true ?_ hr
      by_cases hqn : q = "none" <;> simp [hqn]
  · rw [cmd_mcp_set, if_pos ⟨hbuiltin, hnone⟩]
  · rw [cmd_mcp_set, if_pos ⟨hbuiltin, hnone⟩]
  · rw [parse_mcp_arg, hsplit, List.foldl_cons, List.foldl_nil, hstrip,
      if_neg hne, if_pos hmerged, List.nil_append]

/-- Witness for C9 at a concrete user-defined profile. -/
theorem C9_mcp_set_rejects_user_profiles_witness :
    ((DEFAULT_PROFILES.lookup "myprof").isNone ∧ "myprof" ≠ "none"
      ∧ (([("myprof", ["gm"])] : List (String × List String)).lookup "myprof").isSome
      ∧ pySplitComma "myprof" = ["myprof"] ∧ pyStrip "myprof" = "myprof" ∧ "myprof" ≠ "")
    ∧ ((∀ (cfg2 : SalConfig) (q : String),
        (cmd_mcp_set cfg2 q).1 = 0 ↔ ((DEFAULT_PROFILES.lookup q).isSome ∨ q = "none"))
      ∧ (cmd_mcp_set defaultSalConfig "myprof").1 = 1
      ∧ (cmd_mcp_set defaultSalConfig "myprof").2.1 = defaultSalConfig
      ∧ ((load_profiles [("myprof", ["gm"])]).lookup "myprof").isSome
      ∧ parse_mcp_arg (load_profiles [("myprof", ["gm"])]) (load_shortcuts []) "myprof"
          = dedupLoop (resolve_profile (load_profiles [("myprof", ["gm"])])
              (load_shortcuts []) "myprof")) :=
  ⟨⟨by decide, by decide, by decide, by decide, by decide, by decide⟩,
   C9_mcp_set_rejects_user_profiles defaultSalConfig [("myprof", ["gm"])] (load_shortcuts [])
     "myprof" (by decide) (by decide) (by decide) (by decide) (by decide) (by decide)⟩

/-- C5 counterexample: with an unknown server name and `local_mode`
off, `launch_claude` creates the configured working directory
(`claude_dir.mkdir`) before validation fails, so the claim's "no
filesystem state changes occur prior to the validation failure" is false
at this input (the world changes: `dirExists` flips to `true`). -/
theorem C5_counterexample :
    ¬ ((launch_claude (load_profiles []) (load_shortcuts []) DEFAULT_MCP_SERVERS
        defaultSalConfig (some "bogus") false false false none WaitResult.fileNotFound
        ⟨⟨none, []⟩, false, "/Users/u/proj"⟩).2
      = ⟨⟨none, []⟩, false, "/Users/u/proj"⟩) := by decide

/-- C5 (amended): when the MCP argument resolves to at least one unknown
name, the launch aborts with exit code 1, the offending names are
reported in the error message, the reconciler is never invoked
(`~/.claude.json` untouched) and the working directory is not changed;
the only possible prior file-system effect is the creation of the
configured working directory in non-local mode. -/
theorem C5_amended (profiles : List (String × List String))
    (shortcuts : List (String × String)) (A : List (String × ServerSpec))
    (config : SalConfig) (s : String) (resume local_mode safe_mode : Bool)
    (prompt : Option String) (wait : WaitResult) (w : World)
    (hs : s ≠ "")
    (hinv : (parse_mcp_arg profiles shortcuts s).filter
        (fun n => decide (n ∉ get_available_servers A)) ≠ []) :
    launch_claude profiles shortcuts A config (some s) resume local_mode safe_mode
        prompt wait w
      = (LaunchEnd.code 1, if local_mode then w else { w with dirExists := true })
    ∧ (build_claude_command profiles shortcuts (get_available_servers A) config (some s)
        resume safe_mode prompt).error
      = some ("Unknown MCP servers: " ++ String.intercalate ", "
          ((parse_mcp_arg profiles shortcuts s).filter
            (fun n => decide (n ∉ get_available_servers A)))) := by
  have ht : truthy (some s) = true := by simp [truthy, hs]
  have herr : (build_claude_command profiles shortcuts (get_available_servers A) config
      (some s) resume safe_mode prompt).error
      = some ("Unknown MCP servers: " ++ String.intercalate ", "
          ((parse_mcp_arg profiles shortcuts s).filter
            (fun n => decide (n ∉ get_available_servers A)))) := by
    rw [build_claude_command.eq_def]
    simp only [ht, if_true, Option.getD_some, validate_servers]
    rw [if_pos hinv]
  refine ⟨?_, herr⟩
  rw [launch_claude.eq_def]
  simp only [herr]

/-- Witness for the amended C5 at a concrete invalid launch. -/
theorem C5_amended_witness :
    ("bogus" ≠ ""
      ∧ (parse_mcp_arg (load_profiles []) (load_shortcuts []) "bogus").filter
          (fun n => decide (n ∉ get_available_servers DEFAULT_MCP_SERVERS)) ≠ [])
    ∧ (launch_claude (load_profiles []) (load_shortcuts []) DEFAULT_MCP_SERVERS
        defaultSalConfig (some "bogus") false false false none WaitResult.fileNotFound
        ⟨⟨none, []⟩, false, "/Users/u/proj"⟩
      = (LaunchEnd.code 1,
          if false then (⟨⟨none, []⟩, false, "/Users/u/proj"⟩ : World)
          else { (⟨⟨none, []⟩, false, "/Users/u/proj"⟩ : World) with dirExists := true })
      ∧ (build_claude_command (load_profiles []) (load_shortcuts [])
          (get_available_servers DEFAULT_MCP_SERVERS) defaultSalConfig (some "bogus")
          false false none).error
        = some ("Unknown MCP servers: " ++ String.intercalate ", "
            ((parse_mcp_arg (load_profiles []) (load_shortcuts []) "bogus").filter
              (fun n => decide (n ∉ get_available_servers DEFAULT_MCP_SERVERS))))) :=
  ⟨⟨by decide, by decide⟩,
   C5_amended (load_profiles []) (load_shortcuts []) DEFAULT_MCP_SERVERS defaultSalConfig
     "bogus" false false false none WaitResult.fileNotFound
     ⟨⟨none, []⟩, false, "/Users/u/proj"⟩ (by decide) (by decide)⟩

/-- C6 counterexample: an interrupt delivered while
`launch_claude_oneshot` waits for the child propagates as an uncaught
exception instead of being returned as any result (in particular not as
exit status 130), so the claim's "this holds for every one-shot code
path" is false. -/
theorem C6_counterexample :
    ¬ ∃ r, launch_claude_oneshot (load_profiles []) (load_shortcuts [])
        DEFAULT_MCP_SERVERS defaultSalConfig "hello" none false
        WaitResult.interrupted "" "" ⟨⟨none, []⟩, false, "/Users/u"⟩
      = Except.ok r := by
  rintro ⟨r, h⟩
  rw [show launch_claude_oneshot (load_profiles []) (load_shortcuts [])
      DEFAULT_MCP_SERVERS defaultSalConfig "hello" none false
      WaitResult.interrupted "" "" ⟨⟨none, []⟩, false, "/Users/u"⟩
    = Except.error () from rfl] at h
  exact Except.noConfusion h

/-- C6 (amended): the prompt path of `launch_claude` maps an interrupt
during the wait to the distinct exit status 130, but the other one-shot
path, `launch_claude_oneshot`, propagates the interrupt as an unhandled
exception. -/
theorem C6_amended (profiles : List (String × List String))
    (shortcuts : List (String × String)) (A : List (String × ServerSpec))
    (config : SalConfig) (mcp_arg : Option String)
    (resume local_mode safe_mode : Bool) (p prompt2 : String)
    (mcps : Option (List String)) (co ce : String) (w w2 : World)
    (hp : p ≠ "")
    (h1 : (build_claude_command profiles shortcuts (get_available_servers A) config
        mcp_arg resume safe_mode (some p)).error = none)
    (h2 : (build_claude_command profiles shortcuts (get_available_servers A) config
        (match mcps with
         | some l => if l = [] then none else some (String.intercalate "," l)
         | none => none)
        false safe_mode (some prompt2)).error = none) :
    (launch_claude profiles shortcuts A config mcp_arg resume local_mode safe_mode
        (some p) WaitResult.interrupted w).1 = LaunchEnd.code 130
    ∧ launch_claude_oneshot profiles shortcuts A config prompt2 mcps safe_mode
        WaitResult.interrupted co ce w2 = Except.error () := by
  constructor
  · rw [launch_claude.eq_def]
    simp only [h1]
    simp [truthy, hp]
  · rw [launch_claude_oneshot.eq_def]
    simp only [h2]

/-- Witness for the amended C6 at concrete interrupted runs. -/
theorem C6_amended_witness :
    ("hi" ≠ ""
      ∧ (build_claude_command (load_profiles []) (load_shortcuts [])
          (get_available_servers DEFAULT_MCP_SERVERS) defaultSalConfig none false false
          (some "hi")).error = none
      ∧ (build_claude_command (load_profiles []) (load_shortcuts [])
          (get_available_servers DEFAULT_MCP_SERVERS) defaultSalConfig
          (match (none : Option (List String)) with
           | some l => if l = [] then none else some (String.intercalate "," l)
           | none => none)
          false false (some "hello")).error = none)
    ∧ ((launch_claude (load_profiles []) (load_shortcuts []) DEFAULT_MCP_SERVERS
        defaultSalConfig none false false false (some "hi") WaitResult.interrupted
        ⟨⟨none, []⟩, false, "/Users/u"⟩).1 = LaunchEnd.code 130
      ∧ launch_claude_oneshot (load_profiles []) (load_shortcuts []) DEFAULT_MCP_SERVERS
          defaultSalConfig "hello" none false WaitResult.interrupted "" ""
          ⟨⟨none, []⟩, false, "/Users/u"⟩ = Except.error ()) :=
  ⟨⟨by decide, by decide, by decide⟩,
   C6_amended (load_profiles []) (load_shortcuts []) DEFAULT_MCP_SERVERS defaultSalConfig
     none false false false "hi" "hello" none "" "" ⟨⟨none, []⟩, false, "/Users/u"⟩
     ⟨⟨none, []⟩, false, "/Users/u"⟩ (by decide) (by decide) (by decide)⟩

/-- C8 counterexample: with the configuration value
`skip_permissions = false`, `build_claude_command` omits the
permission-bypass directive even though `safe_mode` is false, so "when
safeMode is false the directive is appended" is false at this input. -/
theorem C8_counterexample :
    "--dangerously-skip-permissions" ∉ (build_claude_command (load_profiles [])
        (load_shortcuts []) (get_available_servers DEFAULT_MCP_SERVERS)
        ⟨none, "~/sal/desktop", some false, none⟩ none false false none).cmd := by
  decide

/-- C8 (amended): on a successful build whose prompt is not itself the
directive string, the permission-bypass directive is in the command
vector iff `safe_mode` is false and the `skip_permissions` configuration
value (default true) is true; in particular `safe_mode = true` always
omits it. -/
theorem C8_amended (profiles : List (String × List String))
    (shortcuts : List (String × String)) (available : List String)
    (config : SalConfig) (mcp_arg : Option String) (resume safe_mode : Bool)
    (prompt : Option String)
    (herr : (build_claude_command profiles shortcuts available config mcp_arg resume
        safe_mode prompt).error = none)
    (hprompt : prompt ≠ some "--dangerously-skip-permissions") :
    "--dangerously-skip-permissions"
        ∈ (build_claude_command profiles shortcuts available config mcp_arg resume
            safe_mode prompt).cmd
      ↔ (safe_mode = false ∧ should_skip_permissions config = true) := by
  rw [build_claude_command.eq_def] at herr ⊢
  by_cases hval : ((if truthy mcp_arg then
      validate_servers available (parse_mcp_arg profiles shortcuts (mcp_arg.getD ""))
      else ([], [])).2 ≠ [])
  · rw [if_pos hval] at herr
    simp at herr
  · rw [if_neg hval]
    cases prompt with
    | none =>
      cases resume <;> cases safe_mode <;>
        cases hcfg : should_skip_permissions config <;> simp [hcfg]
    | some p =>
      have hp : "--dangerously-skip-permissions" ≠ p :=
        fun hh => hprompt (by rw [← hh])
      by_cases hpe : p = "" <;> cases resume <;> cases safe_mode <;>
        cases hcfg : should_skip_permissions config <;> simp [hcfg, hpe, hp]

/-- Witness for the amended C8 at a concrete default-config build. -/
theorem C8_amended_witness :
    ((build_claude_command (load_profiles []) (load_shortcuts [])
        (get_available_servers DEFAULT_MCP_SERVERS) defaultSalConfig none false false
        none).error = none
      ∧ (none : Option String) ≠ some "--dangerously-skip-permissions")
    ∧ ("--dangerously-skip-permissions"
        ∈ (build_claude_command (load_profiles []) (load_shortcuts [])
            (get_available_servers DEFAULT_MCP_SERVERS) defaultSalConfig none false false
            none).cmd
      ↔ (false = false ∧ should_skip_permissions defaultSalConfig = true)) :=
  ⟨⟨by decide, by decide⟩,
   C8_amended (load_profiles []) (load_shortcuts [])
     (get_available_servers DEFAULT_MCP_SERVERS) defaultSalConfig none false false none
     (by decide) (by decide)⟩

end Sal
